import Mathlib

/-!
Verification of the socket layer in `src/net/socket.rs`.

The file shallowly embeds the module: the closed enums (`SocketType`,
`AddressFamily`, `Protocol`, `Shutdown`, `AcceptFlags`) with their
per-backend numeric encodings, the address decode performed inside
`_accept` / `_accept4`, the length-and-layout production used by the
`bind_*` / `connect_*` entry points, and the result normalization of the
two backends (libc-mediated and direct linux_raw syscalls).  Kernel
interaction is modelled by passing the kernel's outcome (return value,
errno, filled buffers) as explicit arguments; Rust panics (`assert!`,
`panic!`) are modelled as a dedicated `panicked` result constructor
tagged with the source panic site.  The target configuration modelled is
Linux, the one configuration on which both backends exist.
-/

namespace RustixNet

/-! ## Platform constant tables (spec §6: external constant tables) -/

namespace libc

/-- Modelled from the spec: numeric `AF_*` constants of the libc backend on
Linux; the constant tables are external collaborators (spec §6). -/
def AF_LOCAL : Nat := 1

/-- Modelled from the spec: libc `AF_INET` on Linux. -/
def AF_INET : Nat := 2

/-- Modelled from the spec: libc `AF_INET6` on Linux. -/
def AF_INET6 : Nat := 10

/-- Modelled from the spec: libc `AF_NETLINK` on Linux. -/
def AF_NETLINK : Nat := 16

/-- Modelled from the spec: libc `SOCK_STREAM` on Linux. -/
def SOCK_STREAM : Nat := 1

/-- Modelled from the spec: libc `SOCK_DGRAM` on Linux. -/
def SOCK_DGRAM : Nat := 2

/-- Modelled from the spec: libc `SOCK_RAW` on Linux. -/
def SOCK_RAW : Nat := 3

/-- Modelled from the spec: libc `SOCK_RDM` on Linux. -/
def SOCK_RDM : Nat := 4

/-- Modelled from the spec: libc `SOCK_SEQPACKET` on Linux. -/
def SOCK_SEQPACKET : Nat := 5

/-- Modelled from the spec: libc `SHUT_RD` on Linux. -/
def SHUT_RD : Nat := 0

/-- Modelled from the spec: libc `SHUT_WR` on Linux. -/
def SHUT_WR : Nat := 1

/-- Modelled from the spec: libc `SHUT_RDWR` on Linux. -/
def SHUT_RDWR : Nat := 2

/-- Modelled from the spec: libc `SOCK_NONBLOCK` on Linux. -/
def SOCK_NONBLOCK : Nat := 2048

/-- Modelled from the spec: libc `SOCK_CLOEXEC` on Linux. -/
def SOCK_CLOEXEC : Nat := 524288

/-- Modelled from the spec: libc `SOL_SOCKET` on Linux. -/
def SOL_SOCKET : Nat := 1

/-- Modelled from the spec: libc `SO_TYPE` on Linux. -/
def SO_TYPE : Nat := 3

end libc

namespace linux_raw_sys

/-- Modelled from the spec: `linux_raw_sys::general::AF_LOCAL`. -/
def AF_LOCAL : Nat := 1

/-- Modelled from the spec: `linux_raw_sys::general::AF_INET`. -/
def AF_INET : Nat := 2

/-- Modelled from the spec: `linux_raw_sys::general::AF_INET6`. -/
def AF_INET6 : Nat := 10

/-- Modelled from the spec: `linux_raw_sys::general::AF_NETLINK`. -/
def AF_NETLINK : Nat := 16

/-- Modelled from the spec: `linux_raw_sys::general::SOCK_STREAM`. -/
def SOCK_STREAM : Nat := 1

/-- Modelled from the spec: `linux_raw_sys::general::SOCK_DGRAM`. -/
def SOCK_DGRAM : Nat := 2

/-- Modelled from the spec: `linux_raw_sys::general::SOCK_RAW`. -/
def SOCK_RAW : Nat := 3

/-- Modelled from the spec: `linux_raw_sys::general::SOCK_RDM`. -/
def SOCK_RDM : Nat := 4

/-- Modelled from the spec: `linux_raw_sys::general::SOCK_SEQPACKET`. -/
def SOCK_SEQPACKET : Nat := 5

/-- Modelled from the spec: `linux_raw_sys::general::SHUT_RD`. -/
def SHUT_RD : Nat := 0

/-- Modelled from the spec: `linux_raw_sys::general::SHUT_WR`. -/
def SHUT_WR : Nat := 1

/-- Modelled from the spec: `linux_raw_sys::general::SHUT_RDWR`. -/
def SHUT_RDWR : Nat := 2

/-- Modelled from the spec: `linux_raw_sys::general::O_NONBLOCK`, the bit
the linux_raw `AcceptFlags::NONBLOCK` uses (numerically `SOCK_NONBLOCK`). -/
def O_NONBLOCK : Nat := 2048

/-- Modelled from the spec: `linux_raw_sys::general::O_CLOEXEC`, the bit
the linux_raw `AcceptFlags::CLOEXEC` uses (numerically `SOCK_CLOEXEC`). -/
def O_CLOEXEC : Nat := 524288

/-- Modelled from the spec: `linux_raw_sys::general::SOL_SOCKET`. -/
def SOL_SOCKET : Nat := 1

/-- Modelled from the spec: `linux_raw_sys::general::SO_TYPE`. -/
def SO_TYPE : Nat := 3

end linux_raw_sys

/-! ## Address layouts (spec §3, §4.1; `crate::net` is not under `src/`) -/

/-- Modelled from the spec: size in bytes of `SocketAddrV4` (the
`sockaddr_in` layout) on Linux. -/
def sizeof_SocketAddrV4 : Nat := 16

/-- Modelled from the spec: size in bytes of `SocketAddrV6` (the
`sockaddr_in6` layout) on Linux. -/
def sizeof_SocketAddrV6 : Nat := 28

/-- Modelled from the spec: size in bytes of `SocketAddrUnix` (the
`sockaddr_un` layout) on Linux. -/
def sizeof_SocketAddrUnix : Nat := 110

/-- Modelled from the spec: size in bytes of `sockaddr_storage`, the
generic maximum-size raw address buffer, on Linux. -/
def sizeof_sockaddr_storage : Nat := 128

/-- Modelled from the spec: size in bytes of the `SocketType` type tag
(a 32-bit value). -/
def sizeof_SocketType : Nat := 4

/-- Modelled from the spec: the typed IPv4 endpoint (`crate::net::SocketAddrV4`,
an OS `sockaddr_in` payload: port and 32-bit address; the family tag is part
of the byte layout, produced by `encode_v4`). -/
structure SocketAddrV4 where
  port : Nat
  addr : Nat
deriving DecidableEq

/-- Modelled from the spec: the typed IPv6 endpoint (`crate::net::SocketAddrV6`,
an OS `sockaddr_in6` payload: port, flow info, 128-bit address, scope id). -/
structure SocketAddrV6 where
  port : Nat
  flowinfo : Nat
  addr : Nat
  scope_id : Nat
deriving DecidableEq

/-- Modelled from the spec: the typed Unix-domain address
(`crate::net::SocketAddrUnix`, an OS `sockaddr_un` payload: the path bytes). -/
structure SocketAddrUnix where
  path : List Nat
deriving DecidableEq

/-- Typed socket address: the closed variant over the three families,
as matched on in `_accept` / `_accept4` (`crate::net::SocketAddr`). -/
inductive SocketAddr where
  | V4 (a : SocketAddrV4)
  | V6 (a : SocketAddrV6)
  | Unix (a : SocketAddrUnix)
deriving DecidableEq

/-- Raw address buffer: `sockaddr_storage` as populated by the kernel.
The overlapping byte regions of the union are modelled as a product: the
family tag `ss_family` (readable at a fixed offset in every family) plus
one payload view per family; the unsafe pointer cast
`&storage as *const SocketAddrV4` is the projection to the matching view.
Reading a view only ever happens after the family dispatch, mirroring the
source's ordering. -/
structure sockaddr_storage where
  ss_family : Nat
  v4_view : SocketAddrV4
  v6_view : SocketAddrV6
  un_view : SocketAddrUnix
deriving DecidableEq

/-! ## Results and panics -/

/-- Panic sites of the module, used to tag a modelled Rust panic:
 - `unknownFamily`: the catch-all arm of the family match in
   `_accept` and `_accept4` (the unsupported-family condition);
 - `shortLen`: one of the `assert!(len >= size_of::<...>())` checks in
   `_accept` and `_accept4`;
 - `optlenMismatch`: the `assert_eq!(out_len, size_of::<SocketType>())`
   check in `_socket_type`. -/
inductive PanicReason where
  | unknownFamily
  | shortLen
  | optlenMismatch
deriving DecidableEq

/-- Outcome of a modelled operation: a success payload (`Ok`), a
normalized OS error carrying the numeric errno (`Err`), or a Rust panic
tagged with its source site. -/
inductive PResult (α : Type) where
  | ok (val : α)
  | err (errno : Nat)
  | panicked (why : PanicReason)
deriving DecidableEq

/-- Map over the success payload of a `PResult`. -/
def PResult.map {α β : Type} (f : α → β) : PResult α → PResult β
  | .ok a => .ok (f a)
  | .err e => .err e
  | .panicked r => .panicked r

/-! ## Address decode (the family-dispatched match in `_accept` / `_accept4`) -/

/-- Address decode of the libc backend, the match on `storage.ss_family` in
`_accept` (lines 503-517) and `_accept4` (lines 546-560): dispatch on the
family tag first; in the matching arm assert
`len >= size_of::<layout>()` (panic `shortLen` on failure) and only then
reinterpret the payload as that family's structure; the catch-all arm is
`panic!()` (panic `unknownFamily`). -/
def decode_storage_libc (storage : sockaddr_storage) (len : Nat) :
    PResult SocketAddr :=
  if storage.ss_family = libc.AF_INET then
    if sizeof_SocketAddrV4 ≤ len then .ok (.V4 storage.v4_view)
    else .panicked .shortLen
  else if storage.ss_family = libc.AF_INET6 then
    if sizeof_SocketAddrV6 ≤ len then .ok (.V6 storage.v6_view)
    else .panicked .shortLen
  else if storage.ss_family = libc.AF_LOCAL then
    if sizeof_SocketAddrUnix ≤ len then .ok (.Unix storage.un_view)
    else .panicked .shortLen
  else .panicked .unknownFamily

/-- Address decode of the linux_raw backend, the match in the linux_raw
`_accept4` (lines 569-585); textually the same dispatch against the
`linux_raw_sys` constants. -/
def decode_storage_linux_raw (storage : sockaddr_storage) (len : Nat) :
    PResult SocketAddr :=
  if storage.ss_family = linux_raw_sys.AF_INET then
    if sizeof_SocketAddrV4 ≤ len then .ok (.V4 storage.v4_view)
    else .panicked .shortLen
  else if storage.ss_family = linux_raw_sys.AF_INET6 then
    if sizeof_SocketAddrV6 ≤ len then .ok (.V6 storage.v6_view)
    else .panicked .shortLen
  else if storage.ss_family = linux_raw_sys.AF_LOCAL then
    if sizeof_SocketAddrUnix ≤ len then .ok (.Unix storage.un_view)
    else .panicked .shortLen
  else .panicked .unknownFamily

/-! ## Closed enums and their per-backend encodings (source lines 19-302) -/

/-- `SOCK_*` constants enum for `socket` (lines 24-39 libc, 46-61
linux_raw; both cfg variants have the same member set). -/
inductive SocketType where
  | Stream
  | Datagram
  | SeqPacket
  | Raw
  | Rdm
deriving DecidableEq

/-- Discriminant of the libc `SocketType` (each member is declared with
value `libc::SOCK_* as u32`); the Rust cast `type_ as c_int` reads it. -/
def SocketType.toLibc : SocketType → Nat
  | .Stream => libc.SOCK_STREAM
  | .Datagram => libc.SOCK_DGRAM
  | .SeqPacket => libc.SOCK_SEQPACKET
  | .Raw => libc.SOCK_RAW
  | .Rdm => libc.SOCK_RDM

/-- Discriminant of the linux_raw `SocketType` (members declared with
`linux_raw_sys::general::SOCK_*`). -/
def SocketType.toLinuxRaw : SocketType → Nat
  | .Stream => linux_raw_sys.SOCK_STREAM
  | .Datagram => linux_raw_sys.SOCK_DGRAM
  | .SeqPacket => linux_raw_sys.SOCK_SEQPACKET
  | .Raw => linux_raw_sys.SOCK_RAW
  | .Rdm => linux_raw_sys.SOCK_RDM

/-- `AF_*` constants enum (lines 68-87 libc, 94-107 linux_raw; on the
Linux target the libc variant includes `Netlink`, so the member sets
coincide). -/
inductive AddressFamily where
  | Local
  | Inet
  | Inet6
  | Netlink
deriving DecidableEq

/-- Discriminant of the libc `AddressFamily`. -/
def AddressFamily.toLibc : AddressFamily → Nat
  | .Local => libc.AF_LOCAL
  | .Inet => libc.AF_INET
  | .Inet6 => libc.AF_INET6
  | .Netlink => libc.AF_NETLINK

/-- Discriminant of the linux_raw `AddressFamily`. -/
def AddressFamily.toLinuxRaw : AddressFamily → Nat
  | .Local => linux_raw_sys.AF_LOCAL
  | .Inet => linux_raw_sys.AF_INET
  | .Inet6 => linux_raw_sys.AF_INET6
  | .Netlink => linux_raw_sys.AF_NETLINK

/-- `IPPROTO_*` enum of the linux_raw backend (lines 199-254; 27 members,
including `Ethernet` which the libc variant does not declare). -/
inductive Protocol where
  | Ip | Icmp | Igmp | Ipip | Tcp | Egp | Pup | Udp | Idp | Tp
  | Dccp | Ipv6 | Rsvp | Gre | Esp | Ah | Mtp | Beetph | Encap | Pim
  | Comp | Sctp | Udplite | Mpls | Ethernet | Raw | Mptcp
deriving DecidableEq

/-- Modelled from the spec: the numeric `IPPROTO_*` values on Linux
(external constant tables, spec §6); discriminants of the linux_raw
`Protocol`. -/
def Protocol.toLinuxRaw : Protocol → Nat
  | .Ip => 0
  | .Icmp => 1
  | .Igmp => 2
  | .Ipip => 4
  | .Tcp => 6
  | .Egp => 8
  | .Pup => 12
  | .Udp => 17
  | .Idp => 22
  | .Tp => 29
  | .Dccp => 33
  | .Ipv6 => 41
  | .Rsvp => 46
  | .Gre => 47
  | .Esp => 50
  | .Ah => 51
  | .Mtp => 92
  | .Beetph => 94
  | .Encap => 98
  | .Pim => 103
  | .Comp => 108
  | .Sctp => 132
  | .Udplite => 136
  | .Mpls => 137
  | .Ethernet => 143
  | .Raw => 255
  | .Mptcp => 262

/-- `IPPROTO_*` enum of the libc backend on the Linux target
(lines 114-192; the cfg gates exclude no member on Linux, and libc
declares no `Ethernet` member: 26 members). -/
inductive ProtocolLibc where
  | Ip | Icmp | Igmp | Ipip | Tcp | Egp | Pup | Udp | Idp | Tp
  | Dccp | Ipv6 | Rsvp | Gre | Esp | Ah | Mtp | Beetph | Encap | Pim
  | Comp | Sctp | Udplite | Mpls | Raw | Mptcp
deriving DecidableEq

/-- Discriminants of the libc `Protocol` on Linux (same numeric table as
linux_raw for the shared members). -/
def ProtocolLibc.toLibc : ProtocolLibc → Nat
  | .Ip => 0
  | .Icmp => 1
  | .Igmp => 2
  | .Ipip => 4
  | .Tcp => 6
  | .Egp => 8
  | .Pup => 12
  | .Udp => 17
  | .Idp => 22
  | .Tp => 29
  | .Dccp => 33
  | .Ipv6 => 41
  | .Rsvp => 46
  | .Gre => 47
  | .Esp => 50
  | .Ah => 51
  | .Mtp => 92
  | .Beetph => 94
  | .Encap => 98
  | .Pim => 103
  | .Comp => 108
  | .Sctp => 132
  | .Udplite => 136
  | .Mpls => 137
  | .Raw => 255
  | .Mptcp => 262

/-- Injection of the libc `Protocol` member set into the linux_raw one
(the two enums share every member except `Ethernet`); used to compare the
two backends on their common inputs. -/
def ProtocolLibc.toCommon : ProtocolLibc → Protocol
  | .Ip => .Ip
  | .Icmp => .Icmp
  | .Igmp => .Igmp
  | .Ipip => .Ipip
  | .Tcp => .Tcp
  | .Egp => .Egp
  | .Pup => .Pup
  | .Udp => .Udp
  | .Idp => .Idp
  | .Tp => .Tp
  | .Dccp => .Dccp
  | .Ipv6 => .Ipv6
  | .Rsvp => .Rsvp
  | .Gre => .Gre
  | .Esp => .Esp
  | .Ah => .Ah
  | .Mtp => .Mtp
  | .Beetph => .Beetph
  | .Encap => .Encap
  | .Pim => .Pim
  | .Comp => .Comp
  | .Sctp => .Sctp
  | .Udplite => .Udplite
  | .Mpls => .Mpls
  | .Raw => .Raw
  | .Mptcp => .Mptcp

/-- `SHUT_*` enum (lines 260-267 libc, 273-280 linux_raw). -/
inductive Shutdown where
  | Read
  | Write
  | ReadWrite
deriving DecidableEq

/-- Discriminant of the libc `Shutdown`. -/
def Shutdown.toLibc : Shutdown → Nat
  | .Read => libc.SHUT_RD
  | .Write => libc.SHUT_WR
  | .ReadWrite => libc.SHUT_RDWR

/-- Discriminant of the linux_raw `Shutdown`. -/
def Shutdown.toLinuxRaw : Shutdown → Nat
  | .Read => linux_raw_sys.SHUT_RD
  | .Write => linux_raw_sys.SHUT_WR
  | .ReadWrite => linux_raw_sys.SHUT_RDWR

/-- `AcceptFlags` bitflags (lines 283-291 libc, 294-302 linux_raw): a set
over the two declared bits. -/
structure AcceptFlags where
  nonblock : Bool
  cloexec : Bool
deriving DecidableEq

/-- Bit pattern of the libc `AcceptFlags` (`SOCK_NONBLOCK`,
`SOCK_CLOEXEC`); the disjoint bits are combined by addition. -/
def AcceptFlags.bitsLibc (f : AcceptFlags) : Nat :=
  (if f.nonblock then libc.SOCK_NONBLOCK else 0) +
  (if f.cloexec then libc.SOCK_CLOEXEC else 0)

/-- Bit pattern of the linux_raw `AcceptFlags` (`O_NONBLOCK`,
`O_CLOEXEC`). -/
def AcceptFlags.bitsLinuxRaw (f : AcceptFlags) : Nat :=
  (if f.nonblock then linux_raw_sys.O_NONBLOCK else 0) +
  (if f.cloexec then linux_raw_sys.O_CLOEXEC else 0)

/-! ## Kernel outcomes and result normalization (spec §4.3, §4.4) -/

/-- Owned file descriptor handle (`io_lifetimes::OwnedFd`), created by
`OwnedFd::from_raw_fd` on the libc path and returned directly by the
linux_raw wrappers. -/
structure OwnedFd where
  raw_fd : Nat
deriving DecidableEq

/-- Outcome of a kernel call that returns a descriptor or count on
success: either a non-negative value or a failure with an errno. -/
inductive SysOutcome where
  | success (val : Nat)
  | failure (errno : Nat)
deriving DecidableEq

/-- Validity of an outcome: real OS error codes are positive (on the
libc path errno is only meaningful after a `-1` return; on the raw path
an errno of 0 would be indistinguishable from success). -/
def SysOutcome.valid : SysOutcome → Bool
  | .success _ => true
  | .failure e => 0 < e

/-- Outcome of a kernel call that returns 0 on success. -/
inductive SysOutcome0 where
  | success
  | failure (errno : Nat)
deriving DecidableEq

/-- Validity of a zero-returning outcome. -/
def SysOutcome0.valid : SysOutcome0 → Bool
  | .success => true
  | .failure e => 0 < e

/-- Return value of a libc descriptor-returning call: the descriptor on
success, the `-1` sentinel on failure (spec §4.3, mediated path). -/
def libcRet : SysOutcome → Int
  | .success v => (v : Int)
  | .failure _ => -1

/-- Global errno after a libc call; only meaningful on failure. -/
def libcErrno : SysOutcome → Nat
  | .success _ => 0
  | .failure e => e

/-- Return value of a libc zero-returning call. -/
def libcRet0 : SysOutcome0 → Int
  | .success => 0
  | .failure _ => -1

/-- Global errno after a libc zero-returning call. -/
def libcErrno0 : SysOutcome0 → Nat
  | .success => 0
  | .failure e => e

/-- Modelled from the spec: direct-path return convention
(`crate::linux_raw` is not under `src/`): the raw syscall return value
directly encodes a non-negative success value or a negated error code
(spec §4.3, direct path). -/
def rawRet : SysOutcome → Int
  | .success v => (v : Int)
  | .failure e => -(e : Int)

/-- Modelled from the spec: raw return value of a zero-returning call. -/
def rawRet0 : SysOutcome0 → Int
  | .success => 0
  | .failure e => -(e : Int)

/-- Result normalization of the libc path for descriptor-returning calls
(`crate::negone_err`, not under `src/`, modelled from the spec §4.4):
a `-1` return becomes an error carrying errno unchanged, any other
return is unwrapped as the success value. -/
def negone_err (ret : Int) (errno : Nat) : PResult Nat :=
  if ret = -1 then .err errno else .ok ret.toNat

/-- Result normalization of the libc path for zero-returning calls
(`crate::zero_ok`, not under `src/`, modelled from the spec §4.4). -/
def zero_ok (ret : Int) (errno : Nat) : PResult Unit :=
  if ret = 0 then .ok () else .err errno

/-- Modelled from the spec: result normalization of the direct path
(spec §4.3/§4.4): a negative return is an error carrying the negated
code, a non-negative return is the success value. -/
def raw_result (ret : Int) : PResult Nat :=
  if ret < 0 then .err (-ret).toNat else .ok ret.toNat

/-- Modelled from the spec: direct-path normalization for
zero-returning calls. -/
def raw_result0 (ret : Int) : PResult Unit :=
  if ret < 0 then .err (-ret).toNat else .ok ()

/-! ## Syscall requests (the arguments each backend hands the kernel) -/

/-- Arguments of a `socket` call as encoded for the kernel. -/
structure SocketReq where
  domain : Nat
  type_ : Nat
  protocol : Nat
deriving DecidableEq

/-- Arguments of a `bind` / `connect` call: descriptor, the address bytes
(a `sockaddr_storage` view of the pointed-to layout) and the byte length
passed alongside. -/
structure SockaddrReq where
  fd : Nat
  addr_bytes : sockaddr_storage
  len : Nat
deriving DecidableEq

/-- Arguments of a `listen` call. -/
structure ListenReq where
  fd : Nat
  backlog : Int
deriving DecidableEq

/-- Arguments of an `accept4` call observable by the kernel. -/
structure Accept4Req where
  fd : Nat
  flags : Nat
deriving DecidableEq

/-- Arguments of a plain `accept` call. -/
structure AcceptReq where
  fd : Nat
deriving DecidableEq

/-- Arguments of a `shutdown` call. -/
structure ShutdownReq where
  fd : Nat
  how : Nat
deriving DecidableEq

/-- Arguments of the `getsockopt` call issued by `_socket_type`. -/
structure GetsockoptReq where
  fd : Nat
  level : Nat
  optname : Nat
  optlen : Nat
deriving DecidableEq

/-! ## Address encoding (the layout-and-length production of `bind_*` / `connect_*`) -/

/-- All-zero IPv4 payload (unused bytes of an encoded buffer). -/
def zero_v4 : SocketAddrV4 := ⟨0, 0⟩

/-- All-zero IPv6 payload. -/
def zero_v6 : SocketAddrV6 := ⟨0, 0, 0, 0⟩

/-- All-zero Unix-domain payload. -/
def zero_un : SocketAddrUnix := ⟨[]⟩

/-- Modelled from the spec: byte layout and length of a typed IPv4
address as passed by `_bind_in` / `_connect_in` (lines 358-366, 427-435):
the `SocketAddrV4` value is itself the `sockaddr_in` layout, whose family
tag is `AF_INET`, and the length passed is `size_of::<SocketAddrV4>()`. -/
def encode_v4 (a : SocketAddrV4) : sockaddr_storage × Nat :=
  (⟨libc.AF_INET, a, zero_v6, zero_un⟩, sizeof_SocketAddrV4)

/-- Modelled from the spec: byte layout and length of a typed IPv6
address as passed by `_bind_in6` / `_connect_in6` (lines 381-389,
450-458). -/
def encode_v6 (a : SocketAddrV6) : sockaddr_storage × Nat :=
  (⟨libc.AF_INET6, zero_v4, a, zero_un⟩, sizeof_SocketAddrV6)

/-- Modelled from the spec: byte layout and length of a typed
Unix-domain address as passed by `_bind_un` / `_connect_un`
(lines 335-343, 404-412). -/
def encode_un (a : SocketAddrUnix) : sockaddr_storage × Nat :=
  (⟨libc.AF_LOCAL, zero_v4, zero_v6, a⟩, sizeof_SocketAddrUnix)

/-! ## Operation models, libc backend

Each model returns the request handed to the kernel together with the
normalized result; the kernel's behaviour (return value, errno, filled
buffers) enters as explicit outcome arguments. -/

/-- Model of the libc `_socket` (lines 311-320): encode the three enums,
call `libc::socket`, normalize with `negone_err`, wrap the descriptor in
an `OwnedFd`. -/
def _socket_libc (domain : AddressFamily) (type_ : SocketType)
    (protocol : ProtocolLibc) (o : SysOutcome) :
    SocketReq × PResult OwnedFd :=
  (⟨domain.toLibc, type_.toLibc, protocol.toLibc⟩,
   (negone_err (libcRet o) (libcErrno o)).map (fun fd => ⟨fd⟩))

/-- Modelled from the spec: the linux_raw `_socket` (lines 322-325
delegate to `crate::linux_raw::socket`, not under `src/`): same encoded
request, direct-path normalization. -/
def _socket_linux_raw (domain : AddressFamily) (type_ : SocketType)
    (protocol : Protocol) (o : SysOutcome) :
    SocketReq × PResult OwnedFd :=
  (⟨domain.toLinuxRaw, type_.toLinuxRaw, protocol.toLinuxRaw⟩,
   (raw_result (rawRet o)).map (fun fd => ⟨fd⟩))

/-- Model of the libc `_bind_un` (lines 335-343): pass the address bytes
with length `size_of::<SocketAddrUnix>()`, normalize with `zero_ok`. -/
def _bind_un_libc (fd : Nat) (addr : SocketAddrUnix) (o : SysOutcome0) :
    SockaddrReq × PResult Unit :=
  (⟨fd, (encode_un addr).1, (encode_un addr).2⟩,
   zero_ok (libcRet0 o) (libcErrno0 o))

/-- Modelled from the spec: the linux_raw `_bind_un` (lines 345-348
delegate to `crate::linux_raw::bind_un`, not under `src/`): same request
with the family's exact length, direct-path normalization. -/
def _bind_un_linux_raw (fd : Nat) (addr : SocketAddrUnix)
    (o : SysOutcome0) : SockaddrReq × PResult Unit :=
  (⟨fd, (encode_un addr).1, (encode_un addr).2⟩, raw_result0 (rawRet0 o))

/-- Model of the libc `_bind_in` (lines 358-366). -/
def _bind_in_libc (fd : Nat) (addr : SocketAddrV4) (o : SysOutcome0) :
    SockaddrReq × PResult Unit :=
  (⟨fd, (encode_v4 addr).1, (encode_v4 addr).2⟩,
   zero_ok (libcRet0 o) (libcErrno0 o))

/-- Modelled from the spec: the linux_raw `_bind_in` (lines 368-371). -/
def _bind_in_linux_raw (fd : Nat) (addr : SocketAddrV4)
    (o : SysOutcome0) : SockaddrReq × PResult Unit :=
  (⟨fd, (encode_v4 addr).1, (encode_v4 addr).2⟩, raw_result0 (rawRet0 o))

/-- Model of the libc `_bind_in6` (lines 381-389). -/
def _bind_in6_libc (fd : Nat) (addr : SocketAddrV6) (o : SysOutcome0) :
    SockaddrReq × PResult Unit :=
  (⟨fd, (encode_v6 addr).1, (encode_v6 addr).2⟩,
   zero_ok (libcRet0 o) (libcErrno0 o))

/-- Modelled from the spec: the linux_raw `_bind_in6` (lines 391-394). -/
def _bind_in6_linux_raw (fd : Nat) (addr : SocketAddrV6)
    (o : SysOutcome0) : SockaddrReq × PResult Unit :=
  (⟨fd, (encode_v6 addr).1, (encode_v6 addr).2⟩, raw_result0 (rawRet0 o))

/-- Model of the libc `_connect_un` (lines 404-412). -/
def _connect_un_libc (fd : Nat) (addr : SocketAddrUnix)
    (o : SysOutcome0) : SockaddrReq × PResult Unit :=
  (⟨fd, (encode_un addr).1, (encode_un addr).2⟩,
   zero_ok (libcRet0 o) (libcErrno0 o))

/-- Modelled from the spec: the linux_raw `_connect_un`
(lines 414-417). -/
def _connect_un_linux_raw (fd : Nat) (addr : SocketAddrUnix)
    (o : SysOutcome0) : SockaddrReq × PResult Unit :=
  (⟨fd, (encode_un addr).1, (encode_un addr).2⟩, raw_result0 (rawRet0 o))

/-- Model of the libc `_connect_in` (lines 427-435). -/
def _connect_in_libc (fd : Nat) (addr : SocketAddrV4)
    (o : SysOutcome0) : SockaddrReq × PResult Unit :=
  (⟨fd, (encode_v4 addr).1, (encode_v4 addr).2⟩,
   zero_ok (libcRet0 o) (libcErrno0 o))

/-- Modelled from the spec: the linux_raw `_connect_in`
(lines 437-440). -/
def _connect_in_linux_raw (fd : Nat) (addr : SocketAddrV4)
    (o : SysOutcome0) : SockaddrReq × PResult Unit :=
  (⟨fd, (encode_v4 addr).1, (encode_v4 addr).2⟩, raw_result0 (rawRet0 o))

/-- Model of the libc `_connect_in6` (lines 450-458). -/
def _connect_in6_libc (fd : Nat) (addr : SocketAddrV6)
    (o : SysOutcome0) : SockaddrReq × PResult Unit :=
  (⟨fd, (encode_v6 addr).1, (encode_v6 addr).2⟩,
   zero_ok (libcRet0 o) (libcErrno0 o))

/-- Modelled from the spec: the linux_raw `_connect_in6`
(lines 460-463). -/
def _connect_in6_linux_raw (fd : Nat) (addr : SocketAddrV6)
    (o : SysOutcome0) : SockaddrReq × PResult Unit :=
  (⟨fd, (encode_v6 addr).1, (encode_v6 addr).2⟩, raw_result0 (rawRet0 o))

/-- Model of the libc `_listen` (lines 472-475). -/
def _listen_libc (fd : Nat) (backlog : Int) (o : SysOutcome0) :
    ListenReq × PResult Unit :=
  (⟨fd, backlog⟩, zero_ok (libcRet0 o) (libcErrno0 o))

/-- Modelled from the spec: the linux_raw `_listen` (lines 477-481). -/
def _listen_linux_raw (fd : Nat) (backlog : Int) (o : SysOutcome0) :
    ListenReq × PResult Unit :=
  (⟨fd, backlog⟩, raw_result0 (rawRet0 o))

/-- Model of the libc `_shutdown` (lines 596-599). -/
def _shutdown_libc (fd : Nat) (how : Shutdown) (o : SysOutcome0) :
    ShutdownReq × PResult Unit :=
  (⟨fd, how.toLibc⟩, zero_ok (libcRet0 o) (libcErrno0 o))

/-- Modelled from the spec: the linux_raw `_shutdown` (lines 601-605). -/
def _shutdown_linux_raw (fd : Nat) (how : Shutdown) (o : SysOutcome0) :
    ShutdownReq × PResult Unit :=
  (⟨fd, how.toLinuxRaw⟩, raw_result0 (rawRet0 o))

/-- Model of the libc `_accept4` (lines 534-563): call `libc::accept4`,
normalize with `negone_err`, wrap the new descriptor in an `OwnedFd`,
then decode the kernel-filled address buffer.  `storage` and `len` are
the buffer contents and reported length the kernel produced on
success. -/
def _accept4_libc (fd : Nat) (flags : AcceptFlags) (o : SysOutcome)
    (storage : sockaddr_storage) (len : Nat) :
    Accept4Req × PResult (OwnedFd × SocketAddr) :=
  (⟨fd, flags.bitsLibc⟩,
   match negone_err (libcRet o) (libcErrno o) with
   | .err e => .err e
   | .panicked r => .panicked r
   | .ok raw_fd =>
     (decode_storage_libc storage len).map (fun addr => (⟨raw_fd⟩, addr)))

/-- Model of the linux_raw `_accept4` (lines 565-587): the delegate
`crate::linux_raw::accept4` (not under `src/`, direct-path normalization
modelled from the spec) returns the owned descriptor, the buffer and the
length; the address is then decoded by the match in lines 569-585. -/
def _accept4_linux_raw (fd : Nat) (flags : AcceptFlags) (o : SysOutcome)
    (storage : sockaddr_storage) (len : Nat) :
    Accept4Req × PResult (OwnedFd × SocketAddr) :=
  (⟨fd, flags.bitsLinuxRaw⟩,
   match raw_result (rawRet o) with
   | .err e => .err e
   | .panicked r => .panicked r
   | .ok raw_fd =>
     (decode_storage_linux_raw storage len).map
       (fun addr => (⟨raw_fd⟩, addr)))

/-- Model of the libc `_accept` (lines 491-520, the ios/macos build):
identical to `_accept4_libc` except that no flags argument exists. -/
def _accept_libc (fd : Nat) (o : SysOutcome)
    (storage : sockaddr_storage) (len : Nat) :
    AcceptReq × PResult (OwnedFd × SocketAddr) :=
  (⟨fd⟩,
   match negone_err (libcRet o) (libcErrno o) with
   | .err e => .err e
   | .panicked r => .panicked r
   | .ok raw_fd =>
     (decode_storage_libc storage len).map (fun addr => (⟨raw_fd⟩, addr)))

/-- Model of the libc `_socket_type` (lines 615-633): issue
`getsockopt(fd, SOL_SOCKET, SO_TYPE)` with an out-buffer of
`size_of::<SocketType>()` bytes, normalize with `zero_ok`, then
`assert_eq!(out_len, size_of::<SocketType>())` (panic `optlenMismatch`
on mismatch) and return `buffer.assume_init()` — the raw bit pattern
`written` the kernel stored, reinterpreted as `SocketType` with no
validation of its numeric value; the model therefore returns that raw
`Nat`. -/
def _socket_type_libc (fd : Nat) (o : SysOutcome0) (written : Nat)
    (out_len : Nat) : GetsockoptReq × PResult Nat :=
  (⟨fd, libc.SOL_SOCKET, libc.SO_TYPE, sizeof_SocketType⟩,
   match zero_ok (libcRet0 o) (libcErrno0 o) with
   | .err e => .err e
   | .panicked r => .panicked r
   | .ok _ =>
     if out_len = sizeof_SocketType then .ok written
     else .panicked .optlenMismatch)

/-- Model of the linux_raw `_socket_type` (lines 635-656): the delegate
`crate::linux_raw::getsockopt` (not under `src/`, direct-path
normalization modelled from the spec) fills the buffer and `out_len`;
then the same `assert_eq!` and the same unvalidated
`buffer.assume_init()`. -/
def _socket_type_linux_raw (fd : Nat) (o : SysOutcome0) (written : Nat)
    (out_len : Nat) : GetsockoptReq × PResult Nat :=
  (⟨fd, linux_raw_sys.SOL_SOCKET, linux_raw_sys.SO_TYPE,
    sizeof_SocketType⟩,
   match raw_result0 (rawRet0 o) with
   | .err e => .err e
   | .panicked r => .panicked r
   | .ok _ =>
     if out_len = sizeof_SocketType then .ok written
     else .panicked .optlenMismatch)

/-! ## Control-flow traces of `_accept` / `_accept4`

The traces record, in program order, the observable steps of the accept
functions: the kernel call returning, the wrapping of the raw descriptor
into an `OwnedFd` (`OwnedFd::from_raw_fd` on the libc path; performed
inside `crate::linux_raw::accept4` before it returns on the raw path),
the first read of the family discriminant, and the exit (normal return,
error return, or panic).  A panicking exit unwinds through the already
constructed `OwnedFd`, whose drop closes the descriptor. -/

/-- Observable steps of an accept-family call. -/
inductive Event where
  | sysReturn
  | wrapFd
  | readFamily
  | panicEvt
  | retOk
  | retErr
deriving DecidableEq

/-- Exit event corresponding to a decode result. -/
def exitEvent (r : PResult SocketAddr) : Event :=
  match r with
  | .ok _ => .retOk
  | .err _ => .retErr
  | .panicked _ => .panicEvt

/-- Trace of the libc `_accept4` (lines 534-563): on kernel failure the
`?` operator returns the error before any `OwnedFd` exists; on success
`OwnedFd::from_raw_fd` runs (line 544) before the family match
(line 546). -/
def _accept4_libc_trace (o : SysOutcome) (storage : sockaddr_storage)
    (len : Nat) : List Event :=
  match o with
  | .failure _ => [.sysReturn, .retErr]
  | .success _ =>
    [.sysReturn, .wrapFd, .readFamily,
     exitEvent (decode_storage_libc storage len)]

/-- Trace of the libc `_accept` (lines 492-520): same shape, with the
wrap at line 501 before the match at line 503. -/
def _accept_libc_trace (o : SysOutcome) (storage : sockaddr_storage)
    (len : Nat) : List Event :=
  match o with
  | .failure _ => [.sysReturn, .retErr]
  | .success _ =>
    [.sysReturn, .wrapFd, .readFamily,
     exitEvent (decode_storage_libc storage len)]

/-- Trace of the linux_raw `_accept4` (lines 567-587): the delegate
returns an already-owned descriptor (wrap before return, hence before
the family match at line 570). -/
def _accept4_linux_raw_trace (o : SysOutcome)
    (storage : sockaddr_storage) (len : Nat) : List Event :=
  match o with
  | .failure _ => [.sysReturn, .retErr]
  | .success _ =>
    [.sysReturn, .wrapFd, .readFamily,
     exitEvent (decode_storage_linux_raw storage len)]

/-- The set of numeric constants declared by the libc `Protocol` enum on
Linux. -/
def libc_protocol_consts : List Nat :=
  [0, 1, 2, 4, 6, 8, 12, 17, 22, 29, 33, 41, 46, 47, 50, 51, 92, 94, 98,
   103, 108, 132, 136, 137, 255, 262]

/-- The set of numeric constants declared by the linux_raw `Protocol`
enum (the libc set plus `IPPROTO_ETHERNET`). -/
def linux_raw_protocol_consts : List Nat :=
  [0, 1, 2, 4, 6, 8, 12, 17, 22, 29, 33, 41, 46, 47, 50, 51, 92, 94, 98,
   103, 108, 132, 136, 137, 143, 255, 262]

/-! ## Helper lemmas -/

/-- The two decode functions are the same function: the libc and
linux_raw family constants agree on Linux. -/
theorem decode_agree (storage : sockaddr_storage) (len : Nat) :
    decode_storage_libc storage len = decode_storage_linux_raw storage len :=
  rfl

/-- Decode at an `AF_INET` tag reduces to the v4 length check. -/
theorem decode_libc_at_inet (storage : sockaddr_storage) (len : Nat)
    (h : storage.ss_family = libc.AF_INET) :
    decode_storage_libc storage len =
      if sizeof_SocketAddrV4 ≤ len then .ok (.V4 storage.v4_view)
      else .panicked .shortLen := by
  rw [decode_storage_libc, if_pos h]

/-- Decode at an `AF_INET6` tag reduces to the v6 length check. -/
theorem decode_libc_at_inet6 (storage : sockaddr_storage) (len : Nat)
    (h : storage.ss_family = libc.AF_INET6) :
    decode_storage_libc storage len =
      if sizeof_SocketAddrV6 ≤ len then .ok (.V6 storage.v6_view)
      else .panicked .shortLen := by
  rw [decode_storage_libc, if_neg (by rw [h]; decide), if_pos h]

/-- Decode at an `AF_LOCAL` tag reduces to the unix length check. -/
theorem decode_libc_at_local (storage : sockaddr_storage) (len : Nat)
    (h : storage.ss_family = libc.AF_LOCAL) :
    decode_storage_libc storage len =
      if sizeof_SocketAddrUnix ≤ len then .ok (.Unix storage.un_view)
      else .panicked .shortLen := by
  rw [decode_storage_libc, if_neg (by rw [h]; decide),
    if_neg (by rw [h]; decide), if_pos h]

/-- Normalization of a successful descriptor-returning libc call. -/
theorem libc_norm_success (v : Nat) :
    negone_err (libcRet (.success v)) (libcErrno (.success v)) = .ok v := by
  rw [libcRet, libcErrno, negone_err, if_neg (by omega)]
  simp

/-- Normalization of a failed descriptor-returning libc call. -/
theorem libc_norm_failure (e : Nat) :
    negone_err (libcRet (.failure e)) (libcErrno (.failure e)) = .err e :=
  rfl

/-- Normalization of a successful descriptor-returning raw syscall. -/
theorem raw_norm_success (v : Nat) :
    raw_result (rawRet (.success v)) = .ok v := by
  rw [rawRet, raw_result, if_neg (by omega)]
  simp

/-- Normalization of a failed descriptor-returning raw syscall; the
errno round-trips through negation unchanged when positive. -/
theorem raw_norm_failure (e : Nat) (h : 0 < e) :
    raw_result (rawRet (.failure e)) = .err e := by
  rw [rawRet, raw_result, if_pos (by omega)]
  congr 1
  omega

/-- Normalization of a successful zero-returning libc call. -/
theorem libc_norm0_success :
    zero_ok (libcRet0 .success) (libcErrno0 .success) = .ok () :=
  rfl

/-- Normalization of a failed zero-returning libc call. -/
theorem libc_norm0_failure (e : Nat) :
    zero_ok (libcRet0 (.failure e)) (libcErrno0 (.failure e)) = .err e :=
  rfl

/-- Normalization of a successful zero-returning raw syscall. -/
theorem raw_norm0_success : raw_result0 (rawRet0 .success) = .ok () :=
  rfl

/-- Normalization of a failed zero-returning raw syscall. -/
theorem raw_norm0_failure (e : Nat) (h : 0 < e) :
    raw_result0 (rawRet0 (.failure e)) = .err e := by
  rw [rawRet0, raw_result0, if_pos (by omega)]
  congr 1
  omega

/-- The two backends normalize any valid descriptor-returning outcome to
the same result. -/
theorem norm_eq (o : SysOutcome) (h : o.valid = true) :
    negone_err (libcRet o) (libcErrno o) = raw_result (rawRet o) := by
  cases o with
  | success v => rw [libc_norm_success, raw_norm_success]
  | failure e =>
    rw [libc_norm_failure, raw_norm_failure]
    simpa [SysOutcome.valid] using h

/-- The two backends normalize any valid zero-returning outcome to the
same result. -/
theorem norm0_eq (o : SysOutcome0) (h : o.valid = true) :
    zero_ok (libcRet0 o) (libcErrno0 o) = raw_result0 (rawRet0 o) := by
  cases o with
  | success => rw [libc_norm0_success, raw_norm0_success]
  | failure e =>
    rw [libc_norm0_failure, raw_norm0_failure]
    simpa [SysOutcome0.valid] using h

/-- The two `AddressFamily` constant tables agree on Linux. -/
theorem af_enc_eq (d : AddressFamily) : d.toLibc = d.toLinuxRaw := by
  cases d <;> rfl

/-- The two `SocketType` constant tables agree on Linux. -/
theorem st_enc_eq (t : SocketType) : t.toLibc = t.toLinuxRaw := by
  cases t <;> rfl

/-- The two `Protocol` constant tables agree on the common members. -/
theorem proto_enc_eq (p : ProtocolLibc) :
    p.toLibc = p.toCommon.toLinuxRaw := by
  cases p <;> rfl

/-- The two `Shutdown` constant tables agree on Linux. -/
theorem shut_enc_eq (how : Shutdown) : how.toLibc = how.toLinuxRaw := by
  cases how <;> rfl

/-- The two `AcceptFlags` bit tables agree on Linux. -/
theorem flags_enc_eq (f : AcceptFlags) : f.bitsLibc = f.bitsLinuxRaw :=
  rfl

/-! ## Claims -/

/-- C1: for every raw address buffer whose family discriminant holds a
value other than `AF_INET`, `AF_INET6`, or `AF_LOCAL`, the address
decode of `_accept` / `_accept4` (both backends) takes the catch-all arm
of the family match — the unsupported-family failure, realised in the
source as `panic!()` — and never produces any `V4` / `V6` / `Unix`
variant. -/
theorem C1_family_tag_integrity (storage : sockaddr_storage) (len : Nat)
    (h2 : storage.ss_family ≠ libc.AF_INET)
    (h10 : storage.ss_family ≠ libc.AF_INET6)
    (h1 : storage.ss_family ≠ libc.AF_LOCAL) :
    decode_storage_libc storage len = .panicked .unknownFamily ∧
    decode_storage_linux_raw storage len = .panicked .unknownFamily ∧
    ∀ a : SocketAddr, decode_storage_libc storage len ≠ .ok a ∧
      decode_storage_linux_raw storage len ≠ .ok a := by
  have hl : decode_storage_libc storage len = .panicked .unknownFamily := by
    rw [decode_storage_libc, if_neg h2, if_neg h10, if_neg h1]
  have hr : decode_storage_linux_raw storage len = .panicked .unknownFamily := by
    rw [← decode_agree]
    exact hl
  exact ⟨hl, hr, fun a => ⟨by simp [hl], by simp [hr]⟩⟩

/-- Witness for C1: a buffer whose discriminant is 99 decodes to the
unsupported-family panic on both backends. -/
theorem C1_family_tag_integrity_witness :
    decode_storage_libc ⟨99, zero_v4, zero_v6, zero_un⟩ 128 =
      .panicked .unknownFamily ∧
    decode_storage_linux_raw ⟨99, zero_v4, zero_v6, zero_un⟩ 128 =
      .panicked .unknownFamily := by
  have h := C1_family_tag_integrity ⟨99, zero_v4, zero_v6, zero_un⟩ 128
    (by decide) (by decide) (by decide)
  exact ⟨h.1, h.2.1⟩

/-- C2: for each of the three families, the decode in
`_accept` / `_accept4` dispatches on the family discriminant and fails
(the `assert!` panic, before any payload interpretation — the failure is
the same for every payload, as the quantification over `storage` shows)
whenever the kernel-reported length is strictly below the family's
layout size; the payload is reinterpreted as the family's structure
exactly when `reported length >= sizeof`. -/
theorem C2_length_enforcement (storage : sockaddr_storage) (len : Nat) :
    (storage.ss_family = libc.AF_INET →
      (len < sizeof_SocketAddrV4 →
        decode_storage_libc storage len = .panicked .shortLen ∧
        decode_storage_linux_raw storage len = .panicked .shortLen) ∧
      (sizeof_SocketAddrV4 ≤ len →
        decode_storage_libc storage len = .ok (.V4 storage.v4_view) ∧
        decode_storage_linux_raw storage len = .ok (.V4 storage.v4_view))) ∧
    (storage.ss_family = libc.AF_INET6 →
      (len < sizeof_SocketAddrV6 →
        decode_storage_libc storage len = .panicked .shortLen ∧
        decode_storage_linux_raw storage len = .panicked .shortLen) ∧
      (sizeof_SocketAddrV6 ≤ len →
        decode_storage_libc storage len = .ok (.V6 storage.v6_view) ∧
        decode_storage_linux_raw storage len = .ok (.V6 storage.v6_view))) ∧
    (storage.ss_family = libc.AF_LOCAL →
      (len < sizeof_SocketAddrUnix →
        decode_storage_libc storage len = .panicked .shortLen ∧
        decode_storage_linux_raw storage len = .panicked .shortLen) ∧
      (sizeof_SocketAddrUnix ≤ len →
        decode_storage_libc storage len = .ok (.Unix storage.un_view) ∧
        decode_storage_linux_raw storage len = .ok (.Unix storage.un_view))) := by
  refine ⟨fun h => ⟨fun hlen => ⟨?_, ?_⟩, fun hlen => ⟨?_, ?_⟩⟩,
    fun h => ⟨fun hlen => ⟨?_, ?_⟩, fun hlen => ⟨?_, ?_⟩⟩,
    fun h => ⟨fun hlen => ⟨?_, ?_⟩, fun hlen => ⟨?_, ?_⟩⟩⟩
  · rw [decode_libc_at_inet storage len h, if_neg (by omega)]
  · rw [← decode_agree, decode_libc_at_inet storage len h, if_neg (by omega)]
  · rw [decode_libc_at_inet storage len h, if_pos hlen]
  · rw [← decode_agree, decode_libc_at_inet storage len h, if_pos hlen]
  · rw [decode_libc_at_inet6 storage len h, if_neg (by omega)]
  · rw [← decode_agree, decode_libc_at_inet6 storage len h, if_neg (by omega)]
  · rw [decode_libc_at_inet6 storage len h, if_pos hlen]
  · rw [← decode_agree, decode_libc_at_inet6 storage len h, if_pos hlen]
  · rw [decode_libc_at_local storage len h, if_neg (by omega)]
  · rw [← decode_agree, decode_libc_at_local storage len h, if_neg (by omega)]
  · rw [decode_libc_at_local storage len h, if_pos hlen]
  · rw [← decode_agree, decode_libc_at_local storage len h, if_pos hlen]

/-- Witness for C2: the boundary length `sizeof - 1` fails for each of
the three families, and the exact length succeeds. -/
theorem C2_length_enforcement_witness :
    decode_storage_libc ⟨2, zero_v4, zero_v6, zero_un⟩ 15 =
      .panicked .shortLen ∧
    decode_storage_linux_raw ⟨2, zero_v4, zero_v6, zero_un⟩ 15 =
      .panicked .shortLen ∧
    decode_storage_libc ⟨10, zero_v4, zero_v6, zero_un⟩ 27 =
      .panicked .shortLen ∧
    decode_storage_linux_raw ⟨10, zero_v4, zero_v6, zero_un⟩ 27 =
      .panicked .shortLen ∧
    decode_storage_libc ⟨1, zero_v4, zero_v6, zero_un⟩ 109 =
      .panicked .shortLen ∧
    decode_storage_linux_raw ⟨1, zero_v4, zero_v6, zero_un⟩ 109 =
      .panicked .shortLen ∧
    decode_storage_libc ⟨2, zero_v4, zero_v6, zero_un⟩ 16 =
      .ok (.V4 zero_v4) := by
  have h4 := C2_length_enforcement ⟨2, zero_v4, zero_v6, zero_un⟩ 15
  have h4e := C2_length_enforcement ⟨2, zero_v4, zero_v6, zero_un⟩ 16
  have h6 := C2_length_enforcement ⟨10, zero_v4, zero_v6, zero_un⟩ 27
  have hu := C2_length_enforcement ⟨1, zero_v4, zero_v6, zero_un⟩ 109
  exact ⟨(h4.1 rfl).1 (by decide) |>.1, (h4.1 rfl).1 (by decide) |>.2,
    (h6.2.1 rfl).1 (by decide) |>.1, (h6.2.1 rfl).1 (by decide) |>.2,
    (hu.2.2 rfl).1 (by decide) |>.1, (hu.2.2 rfl).1 (by decide) |>.2,
    (h4e.1 rfl).2 (by decide) |>.1⟩

/-- C3 (failing input): when the kernel reports a value that matches no
`SocketType` member (here 999) with the expected payload size, both
`_socket_type` backends return it as a success — the raw bit pattern is
reinterpreted as `SocketType` by `buffer.assume_init()` with no numeric
validation and no `UnrecognizedValue` failure, contradicting the closed
enum's construction invariant. -/
theorem C3_socket_type_unvalidated_decode :
    (_socket_type_libc 3 .success 999 sizeof_SocketType).2 = .ok 999 ∧
    (_socket_type_linux_raw 3 .success 999 sizeof_SocketType).2 = .ok 999 ∧
    999 ∉ [libc.SOCK_STREAM, libc.SOCK_DGRAM, libc.SOCK_SEQPACKET,
      libc.SOCK_RAW, libc.SOCK_RDM] := by
  refine ⟨rfl, rfl, by decide⟩

/-- C4: `_socket_type` (both backends) fails — the `assert_eq!` panic —
whenever the size the kernel reports for the option payload differs from
`size_of::<SocketType>()`, and a value is returned only on an exact
size match. -/
theorem C4_socket_type_size_check (fd written out_len : Nat) :
    (out_len ≠ sizeof_SocketType →
      (_socket_type_libc fd .success written out_len).2 =
        .panicked .optlenMismatch ∧
      (_socket_type_linux_raw fd .success written out_len).2 =
        .panicked .optlenMismatch) ∧
    (out_len = sizeof_SocketType →
      (_socket_type_libc fd .success written out_len).2 = .ok written ∧
      (_socket_type_linux_raw fd .success written out_len).2 = .ok written) ∧
    (∀ (o : SysOutcome0) (v : Nat),
      (_socket_type_libc fd o written out_len).2 = .ok v →
        out_len = sizeof_SocketType) ∧
    (∀ (o : SysOutcome0) (v : Nat),
      (_socket_type_linux_raw fd o written out_len).2 = .ok v →
        out_len = sizeof_SocketType) := by
  refine ⟨fun h => ⟨?_, ?_⟩, fun h => ⟨?_, ?_⟩, fun o v hv => ?_,
    fun o v hv => ?_⟩
  · simp [_socket_type_libc, zero_ok, libcRet0, libcErrno0, h]
  · simp [_socket_type_linux_raw, raw_result0, rawRet0, h]
  · simp [_socket_type_libc, zero_ok, libcRet0, libcErrno0, h]
  · simp [_socket_type_linux_raw, raw_result0, rawRet0, h]
  · by_contra hne
    cases o with
    | success =>
      simp [_socket_type_libc, zero_ok, libcRet0, libcErrno0, hne] at hv
    | failure e =>
      simp [_socket_type_libc, zero_ok, libcRet0, libcErrno0] at hv
  · by_contra hne
    cases o with
    | success =>
      simp [_socket_type_linux_raw, raw_result0, rawRet0, hne] at hv
    | failure e =>
      rcases Nat.eq_zero_or_pos e with he | he
      · subst he
        simp [_socket_type_linux_raw, raw_result0, rawRet0, hne] at hv
      · simp [_socket_type_linux_raw, raw_result0, rawRet0, he] at hv

/-- Witness for C4: a reported size of 8 panics, a reported size of 4
returns the value. -/
theorem C4_socket_type_size_check_witness :
    (_socket_type_libc 3 .success 1 8).2 = .panicked .optlenMismatch ∧
    (_socket_type_linux_raw 3 .success 1 8).2 = .panicked .optlenMismatch ∧
    (_socket_type_libc 3 .success 1 4).2 = .ok 1 := by
  have h8 := C4_socket_type_size_check 3 1 8
  have h4 := C4_socket_type_size_check 3 1 4
  exact ⟨(h8.1 (by decide)).1, (h8.1 (by decide)).2, (h4.2.1 rfl).1⟩

/-- C5: decoding the byte layout produced by encoding a typed address —
the layout-and-length production used by `bind_*` / `connect_*` — yields
the address back, for each of the three families and both backends; and
`_bind_in` passes exactly that production to the kernel. -/
theorem C5_address_round_trip (a4 : SocketAddrV4) (a6 : SocketAddrV6)
    (au : SocketAddrUnix) :
    decode_storage_libc (encode_v4 a4).1 (encode_v4 a4).2 = .ok (.V4 a4) ∧
    decode_storage_libc (encode_v6 a6).1 (encode_v6 a6).2 = .ok (.V6 a6) ∧
    decode_storage_libc (encode_un au).1 (encode_un au).2 = .ok (.Unix au) ∧
    decode_storage_linux_raw (encode_v4 a4).1 (encode_v4 a4).2 =
      .ok (.V4 a4) ∧
    decode_storage_linux_raw (encode_v6 a6).1 (encode_v6 a6).2 =
      .ok (.V6 a6) ∧
    decode_storage_linux_raw (encode_un au).1 (encode_un au).2 =
      .ok (.Unix au) ∧
    ∀ (fd : Nat) (o : SysOutcome0),
      (_bind_in_libc fd a4 o).1.addr_bytes = (encode_v4 a4).1 ∧
      (_bind_in_libc fd a4 o).1.len = (encode_v4 a4).2 :=
  ⟨rfl, rfl, rfl, rfl, rfl, rfl, fun _ _ => ⟨rfl, rfl⟩⟩

/-- C6: on every input available to both, the libc-mediated and the
direct-syscall implementations of each facade operation (`socket`,
`bind_*`, `connect_*`, `listen`, `accept4`, `shutdown`, `socket_type`)
are literally equal — both the request handed to the kernel and the
normalized success/failure result — for every valid kernel outcome; the
public facade functions merely delegate to the configured backend
(lines 306-308 and peers in the source) with no backend-distinguishing
logic, which this pointwise equality makes sound. -/
theorem C6_backend_equivalence
    (d : AddressFamily) (t : SocketType) (p : ProtocolLibc) (fd : Nat)
    (a4 : SocketAddrV4) (a6 : SocketAddrV6) (au : SocketAddrUnix)
    (backlog : Int) (fl : AcceptFlags) (how : Shutdown)
    (o : SysOutcome) (o0 : SysOutcome0) (storage : sockaddr_storage)
    (len written out_len : Nat)
    (ho : o.valid = true) (ho0 : o0.valid = true) :
    _socket_libc d t p o = _socket_linux_raw d t p.toCommon o ∧
    _bind_un_libc fd au o0 = _bind_un_linux_raw fd au o0 ∧
    _bind_in_libc fd a4 o0 = _bind_in_linux_raw fd a4 o0 ∧
    _bind_in6_libc fd a6 o0 = _bind_in6_linux_raw fd a6 o0 ∧
    _connect_un_libc fd au o0 = _connect_un_linux_raw fd au o0 ∧
    _connect_in_libc fd a4 o0 = _connect_in_linux_raw fd a4 o0 ∧
    _connect_in6_libc fd a6 o0 = _connect_in6_linux_raw fd a6 o0 ∧
    _listen_libc fd backlog o0 = _listen_linux_raw fd backlog o0 ∧
    _accept4_libc fd fl o storage len =
      _accept4_linux_raw fd fl o storage len ∧
    _shutdown_libc fd how o0 = _shutdown_linux_raw fd how o0 ∧
    _socket_type_libc fd o0 written out_len =
      _socket_type_linux_raw fd o0 written out_len := by
  refine ⟨?_, ?_, ?_, ?_, ?_, ?_, ?_, ?_, ?_, ?_, ?_⟩
  · unfold _socket_libc _socket_linux_raw
    rw [af_enc_eq, st_enc_eq, proto_enc_eq, norm_eq o ho]
  · unfold _bind_un_libc _bind_un_linux_raw
    rw [norm0_eq o0 ho0]
  · unfold _bind_in_libc _bind_in_linux_raw
    rw [norm0_eq o0 ho0]
  · unfold _bind_in6_libc _bind_in6_linux_raw
    rw [norm0_eq o0 ho0]
  · unfold _connect_un_libc _connect_un_linux_raw
    rw [norm0_eq o0 ho0]
  · unfold _connect_in_libc _connect_in_linux_raw
    rw [norm0_eq o0 ho0]
  · unfold _connect_in6_libc _connect_in6_linux_raw
    rw [norm0_eq o0 ho0]
  · unfold _listen_libc _listen_linux_raw
    rw [norm0_eq o0 ho0]
  · unfold _accept4_libc _accept4_linux_raw
    rw [flags_enc_eq, norm_eq o ho, decode_agree storage len]
  · unfold _shutdown_libc _shutdown_linux_raw
    rw [shut_enc_eq, norm0_eq o0 ho0]
  · unfold _socket_type_libc _socket_type_linux_raw
    rw [norm0_eq o0 ho0]
    rfl

/-- Witness for C6: backend equality at concrete inputs, one
descriptor-returning and one zero-returning outcome. -/
theorem C6_backend_equivalence_witness :
    _socket_libc .Inet .Stream .Tcp (.success 7) =
      _socket_linux_raw .Inet .Stream (ProtocolLibc.toCommon .Tcp)
        (.success 7) ∧
    _accept4_libc 3 ⟨true, false⟩ (.success 7)
        ⟨2, zero_v4, zero_v6, zero_un⟩ 16 =
      _accept4_linux_raw 3 ⟨true, false⟩ (.success 7)
        ⟨2, zero_v4, zero_v6, zero_un⟩ 16 ∧
    _listen_libc 3 1 (.failure 13) = _listen_linux_raw 3 1 (.failure 13) := by
  have h := C6_backend_equivalence .Inet .Stream .Tcp 3 ⟨8080, 2130706433⟩
    zero_v6 ⟨[47]⟩ 1 ⟨true, false⟩ .ReadWrite (.success 7) (.failure 13)
    ⟨2, zero_v4, zero_v6, zero_un⟩ 16 1 4 (by decide) (by decide)
  exact ⟨h.1, h.2.2.2.2.2.2.2.2.1, h.2.2.2.2.2.2.2.1⟩

/-- C7: each backend's native failure signal (`-1` plus errno on the
libc path, negated error code on the raw path) is normalized, for every
facade operation, into an error value carrying the numeric OS error code
unchanged, and success returns are unwrapped into the operation's
declared payload (`OwnedFd`, `()`, decoded address, type value); the
returned `PResult` never exposes a raw sentinel or global error state. -/
theorem C7_result_normalization
    (d : AddressFamily) (t : SocketType) (pl : ProtocolLibc)
    (pr : Protocol) (fd : Nat) (a4 : SocketAddrV4) (a6 : SocketAddrV6)
    (au : SocketAddrUnix) (backlog : Int) (fl : AcceptFlags)
    (how : Shutdown) (storage : sockaddr_storage)
    (len written out_len : Nat) (e v : Nat) (he : 0 < e) :
    ((_socket_libc d t pl (.failure e)).2 = .err e ∧
     (_socket_linux_raw d t pr (.failure e)).2 = .err e ∧
     (_bind_un_libc fd au (.failure e)).2 = .err e ∧
     (_bind_un_linux_raw fd au (.failure e)).2 = .err e ∧
     (_bind_in_libc fd a4 (.failure e)).2 = .err e ∧
     (_bind_in_linux_raw fd a4 (.failure e)).2 = .err e ∧
     (_bind_in6_libc fd a6 (.failure e)).2 = .err e ∧
     (_bind_in6_linux_raw fd a6 (.failure e)).2 = .err e ∧
     (_connect_un_libc fd au (.failure e)).2 = .err e ∧
     (_connect_un_linux_raw fd au (.failure e)).2 = .err e ∧
     (_connect_in_libc fd a4 (.failure e)).2 = .err e ∧
     (_connect_in_linux_raw fd a4 (.failure e)).2 = .err e ∧
     (_connect_in6_libc fd a6 (.failure e)).2 = .err e ∧
     (_connect_in6_linux_raw fd a6 (.failure e)).2 = .err e ∧
     (_listen_libc fd backlog (.failure e)).2 = .err e ∧
     (_listen_linux_raw fd backlog (.failure e)).2 = .err e ∧
     (_accept4_libc fd fl (.failure e) storage len).2 = .err e ∧
     (_accept4_linux_raw fd fl (.failure e) storage len).2 = .err e ∧
     (_accept_libc fd (.failure e) storage len).2 = .err e ∧
     (_shutdown_libc fd how (.failure e)).2 = .err e ∧
     (_shutdown_linux_raw fd how (.failure e)).2 = .err e ∧
     (_socket_type_libc fd (.failure e) written out_len).2 = .err e ∧
     (_socket_type_linux_raw fd (.failure e) written out_len).2 = .err e) ∧
    (((_socket_libc d t pl (.success v)).2 = .ok ⟨v⟩ ∧
      (_socket_linux_raw d t pr (.success v)).2 = .ok ⟨v⟩ ∧
      (_bind_un_libc fd au .success).2 = .ok () ∧
      (_bind_un_linux_raw fd au .success).2 = .ok () ∧
      (_bind_in_libc fd a4 .success).2 = .ok () ∧
      (_bind_in_linux_raw fd a4 .success).2 = .ok () ∧
      (_bind_in6_libc fd a6 .success).2 = .ok () ∧
      (_bind_in6_linux_raw fd a6 .success).2 = .ok () ∧
      (_connect_un_libc fd au .success).2 = .ok () ∧
      (_connect_un_linux_raw fd au .success).2 = .ok () ∧
      (_connect_in_libc fd a4 .success).2 = .ok () ∧
      (_connect_in_linux_raw fd a4 .success).2 = .ok () ∧
      (_connect_in6_libc fd a6 .success).2 = .ok () ∧
      (_connect_in6_linux_raw fd a6 .success).2 = .ok () ∧
      (_listen_libc fd backlog .success).2 = .ok () ∧
      (_listen_linux_raw fd backlog .success).2 = .ok () ∧
      (_shutdown_libc fd how .success).2 = .ok () ∧
      (_shutdown_linux_raw fd how .success).2 = .ok ()) ∧
     (∀ addr : SocketAddr, decode_storage_libc storage len = .ok addr →
       (_accept4_libc fd fl (.success v) storage len).2 = .ok (⟨v⟩, addr) ∧
       (_accept4_linux_raw fd fl (.success v) storage len).2 =
         .ok (⟨v⟩, addr) ∧
       (_accept_libc fd (.success v) storage len).2 = .ok (⟨v⟩, addr)) ∧
     ((_socket_type_libc fd .success written sizeof_SocketType).2 =
        .ok written ∧
      (_socket_type_linux_raw fd .success written sizeof_SocketType).2 =
        .ok written)) := by
  constructor
  · simp [_socket_libc, _socket_linux_raw, _bind_un_libc,
      _bind_un_linux_raw, _bind_in_libc, _bind_in_linux_raw,
      _bind_in6_libc, _bind_in6_linux_raw, _connect_un_libc,
      _connect_un_linux_raw, _connect_in_libc, _connect_in_linux_raw,
      _connect_in6_libc, _connect_in6_linux_raw, _listen_libc,
      _listen_linux_raw, _accept4_libc, _accept4_linux_raw, _accept_libc,
      _shutdown_libc, _shutdown_linux_raw, _socket_type_libc,
      _socket_type_linux_raw, libc_norm_failure, raw_norm_failure e he,
      libc_norm0_failure, raw_norm0_failure e he, PResult.map]
  refine ⟨?_, fun addr haddr => ?_, ?_⟩
  · simp [_socket_libc, _socket_linux_raw, _bind_un_libc,
      _bind_un_linux_raw, _bind_in_libc, _bind_in_linux_raw,
      _bind_in6_libc, _bind_in6_linux_raw, _connect_un_libc,
      _connect_un_linux_raw, _connect_in_libc, _connect_in_linux_raw,
      _connect_in6_libc, _connect_in6_linux_raw, _listen_libc,
      _listen_linux_raw, _shutdown_libc, _shutdown_linux_raw,
      libc_norm_success, raw_norm_success, libc_norm0_success,
      raw_norm0_success, PResult.map]
  · simp [_accept4_libc, _accept4_linux_raw, _accept_libc,
      libc_norm_success, raw_norm_success, ← decode_agree storage len,
      haddr, PResult.map]
  · simp [_socket_type_libc, _socket_type_linux_raw,
      libc_norm0_success, raw_norm0_success]

/-- Witness for C7: a failed `socket` surfaces errno 13 unchanged; a
successful `accept4` unwraps into the owned descriptor and the decoded
peer address. -/
theorem C7_result_normalization_witness :
    (_socket_libc .Inet .Stream .Tcp (.failure 13)).2 = .err 13 ∧
    (_accept4_libc 3 ⟨false, true⟩ (.success 7)
      ⟨2, zero_v4, zero_v6, zero_un⟩ 16).2 = .ok (⟨7⟩, .V4 zero_v4) := by
  have h := C7_result_normalization .Inet .Stream .Tcp .Tcp 3
    ⟨8080, 2130706433⟩ zero_v6 ⟨[47]⟩ 1 ⟨false, true⟩ .ReadWrite
    ⟨2, zero_v4, zero_v6, zero_un⟩ 16 1 4 13 7 (by decide)
  exact ⟨h.1.1, (h.2.2.1 (.V4 zero_v4) rfl).1⟩

/-- C8: encoding any value of each closed enum (`AddressFamily`,
`SocketType`, `Protocol`, `Shutdown`, `AcceptFlags`) to its backend
numeric constant is a total Lean function (no panicking path exists) and
always lands in the backend's declared constant table, on both backend
configurations. -/
theorem C8_encode_totality :
    (∀ t : SocketType,
      t.toLibc ∈ [libc.SOCK_STREAM, libc.SOCK_DGRAM, libc.SOCK_SEQPACKET,
        libc.SOCK_RAW, libc.SOCK_RDM] ∧
      t.toLinuxRaw ∈ [linux_raw_sys.SOCK_STREAM, linux_raw_sys.SOCK_DGRAM,
        linux_raw_sys.SOCK_SEQPACKET, linux_raw_sys.SOCK_RAW,
        linux_raw_sys.SOCK_RDM]) ∧
    (∀ d : AddressFamily,
      d.toLibc ∈ [libc.AF_LOCAL, libc.AF_INET, libc.AF_INET6,
        libc.AF_NETLINK] ∧
      d.toLinuxRaw ∈ [linux_raw_sys.AF_LOCAL, linux_raw_sys.AF_INET,
        linux_raw_sys.AF_INET6, linux_raw_sys.AF_NETLINK]) ∧
    (∀ p : ProtocolLibc, p.toLibc ∈ libc_protocol_consts) ∧
    (∀ p : Protocol, p.toLinuxRaw ∈ linux_raw_protocol_consts) ∧
    (∀ how : Shutdown,
      how.toLibc ∈ [libc.SHUT_RD, libc.SHUT_WR, libc.SHUT_RDWR] ∧
      how.toLinuxRaw ∈ [linux_raw_sys.SHUT_RD, linux_raw_sys.SHUT_WR,
        linux_raw_sys.SHUT_RDWR]) ∧
    (∀ f : AcceptFlags,
      f.bitsLibc ∈ [0, libc.SOCK_NONBLOCK, libc.SOCK_CLOEXEC,
        libc.SOCK_NONBLOCK + libc.SOCK_CLOEXEC] ∧
      f.bitsLinuxRaw ∈ [0, linux_raw_sys.O_NONBLOCK,
        linux_raw_sys.O_CLOEXEC,
        linux_raw_sys.O_NONBLOCK + linux_raw_sys.O_CLOEXEC]) := by
  refine ⟨fun t => ?_, fun d => ?_, fun p => ?_, fun p => ?_,
    fun how => ?_, fun f => ?_⟩
  · cases t <;> exact ⟨by decide, by decide⟩
  · cases d <;> exact ⟨by decide, by decide⟩
  · cases p <;> decide
  · cases p <;> decide
  · cases how <;> exact ⟨by decide, by decide⟩
  · obtain ⟨nb, ce⟩ := f
    cases nb <;> cases ce <;> exact ⟨by decide, by decide⟩

/-- C9: every `bind_*` / `connect_*` entry point passes the kernel the
exact size of its own family's address structure — never the generic
maximum-size `sockaddr_storage` length — on both backends. -/
theorem C9_exact_family_length (fd : Nat) (a4 : SocketAddrV4)
    (a6 : SocketAddrV6) (au : SocketAddrUnix) (o : SysOutcome0) :
    ((_bind_un_libc fd au o).1.len = sizeof_SocketAddrUnix ∧
     (_bind_un_linux_raw fd au o).1.len = sizeof_SocketAddrUnix ∧
     (_bind_in_libc fd a4 o).1.len = sizeof_SocketAddrV4 ∧
     (_bind_in_linux_raw fd a4 o).1.len = sizeof_SocketAddrV4 ∧
     (_bind_in6_libc fd a6 o).1.len = sizeof_SocketAddrV6 ∧
     (_bind_in6_linux_raw fd a6 o).1.len = sizeof_SocketAddrV6 ∧
     (_connect_un_libc fd au o).1.len = sizeof_SocketAddrUnix ∧
     (_connect_un_linux_raw fd au o).1.len = sizeof_SocketAddrUnix ∧
     (_connect_in_libc fd a4 o).1.len = sizeof_SocketAddrV4 ∧
     (_connect_in_linux_raw fd a4 o).1.len = sizeof_SocketAddrV4 ∧
     (_connect_in6_libc fd a6 o).1.len = sizeof_SocketAddrV6 ∧
     (_connect_in6_linux_raw fd a6 o).1.len = sizeof_SocketAddrV6) ∧
    (sizeof_SocketAddrUnix ≠ sizeof_sockaddr_storage ∧
     sizeof_SocketAddrV4 ≠ sizeof_sockaddr_storage ∧
     sizeof_SocketAddrV6 ≠ sizeof_sockaddr_storage) :=
  ⟨⟨rfl, rfl, rfl, rfl, rfl, rfl, rfl, rfl, rfl, rfl, rfl, rfl⟩,
   by decide⟩

/-- C10: in `_accept` and `_accept4` (both backends), on every kernel
success the raw descriptor is wrapped into an `OwnedFd` exactly once,
and that wrap precedes the first read of the family discriminant and any
panic exit (the unrecognized-family and short-length panics therefore
unwind through — and are cleaned up by — the already-constructed owner);
on kernel failure no descriptor exists and none is wrapped. -/
theorem C10_accept_fd_owned_first (v e len : Nat)
    (storage : sockaddr_storage) :
    ((_accept4_libc_trace (.success v) storage len).count .wrapFd = 1 ∧
     (_accept4_libc_trace (.success v) storage len).indexOf .wrapFd <
       (_accept4_libc_trace (.success v) storage len).indexOf .readFamily ∧
     (_accept4_libc_trace (.success v) storage len).indexOf .wrapFd <
       (_accept4_libc_trace (.success v) storage len).indexOf .panicEvt ∧
     (_accept4_libc_trace (.failure e) storage len).count .wrapFd = 0) ∧
    ((_accept_libc_trace (.success v) storage len).count .wrapFd = 1 ∧
     (_accept_libc_trace (.success v) storage len).indexOf .wrapFd <
       (_accept_libc_trace (.success v) storage len).indexOf .readFamily ∧
     (_accept_libc_trace (.success v) storage len).indexOf .wrapFd <
       (_accept_libc_trace (.success v) storage len).indexOf .panicEvt ∧
     (_accept_libc_trace (.failure e) storage len).count .wrapFd = 0) ∧
    ((_accept4_linux_raw_trace (.success v) storage len).count .wrapFd = 1 ∧
     (_accept4_linux_raw_trace (.success v) storage len).indexOf .wrapFd <
       (_accept4_linux_raw_trace (.success v) storage len).indexOf
         .readFamily ∧
     (_accept4_linux_raw_trace (.success v) storage len).indexOf .wrapFd <
       (_accept4_linux_raw_trace (.success v) storage len).indexOf
         .panicEvt ∧
     (_accept4_linux_raw_trace (.failure e) storage len).count .wrapFd
       = 0) := by
  refine ⟨?_, ?_, ?_⟩
  · rcases hdec : decode_storage_libc storage len with a | er | w <;>
      refine ⟨?_, ?_, ?_, ?_⟩ <;>
      simp only [_accept4_libc_trace, exitEvent, hdec] <;> decide
  · rcases hdec : decode_storage_libc storage len with a | er | w <;>
      refine ⟨?_, ?_, ?_, ?_⟩ <;>
      simp only [_accept_libc_trace, exitEvent, hdec] <;> decide
  · rcases hdec : decode_storage_linux_raw storage len with a | er | w <;>
      refine ⟨?_, ?_, ?_, ?_⟩ <;>
      simp only [_accept4_linux_raw_trace, exitEvent, hdec] <;> decide

end RustixNet
